import Mathlib

/-!
Verification of `src/extension/src/graphql.ts`: a minimal Sourcegraph GraphQL
client exposing four domain operations (`search`, `resolveRev`,
`resolveRepository`, `queryExtensions`) on top of one generic executor
(`requestGraphQL`).

The embedding models JavaScript runtime values (`JSValue`), JavaScript
property access (throwing a `TypeError` on `null`/`undefined`, yielding
`undefined` for a missing property), JS truthiness, `JSON.stringify`, the
WHATWG `URL` constructor restricted to absolute-path inputs, and the
`\x7b data, errors \x7d` GraphQL envelope.  The HTTP transport
(`tracedFetch` of `./tracing`) is — as the specification states — an
external collaborator, so it is a function parameter from the outgoing
request to a response.  Tracing (`tracePromise`) only wraps the promise and
propagates its outcome unchanged, so it is invisible to the returned value
and is elided from the result model.
-/

/-- A JavaScript runtime value as far as this client observes it: the JSON
scalars, arrays and objects, plus `undefined`. Object fields keep insertion
order. -/
inductive JSValue where
  | undefined : JSValue
  | null : JSValue
  | bool (b : Bool) : JSValue
  | num (n : Int) : JSValue
  | str (s : String) : JSValue
  | arr (elems : List JSValue) : JSValue
  | obj (fields : List (String × JSValue)) : JSValue
deriving Repr

/-- An error thrown by the client: `error` is a plain `new Error(message)`
thrown by the source code itself; `typeError` is the `TypeError` the JS
runtime throws when a property of `null` or `undefined` is read. -/
inductive JSError where
  | error (message : String) : JSError
  | typeError (message : String) : JSError
deriving Repr, DecidableEq

/-- JavaScript truthiness of a `JSValue` (`NaN` is not representable here;
every object and array is truthy). -/
def jsTruthy : JSValue → Bool
  | .undefined => false
  | .null => false
  | .bool b => b
  | .num n => n != 0
  | .str s => !s.isEmpty
  | .arr _ => true
  | .obj _ => true

/-- First field of the object field list with the given key, `undefined`
when absent (JS property lookup on a plain object). -/
def lookupField (fields : List (String × JSValue)) (key : String) : JSValue :=
  match fields.find? (fun p => p.1 == key) with
  | some p => p.2
  | none => JSValue.undefined

/-- JavaScript property read `v[key]`: throws a `TypeError` on `null` and
`undefined`, looks the key up on objects, and yields `undefined` on every
other primitive and on arrays (no such named property). -/
def jsGet (v : JSValue) (key : String) : Except JSError JSValue :=
  match v with
  | .undefined =>
      .error (.typeError ("Cannot read properties of undefined (reading " ++ key ++ ")"))
  | .null =>
      .error (.typeError ("Cannot read properties of null (reading " ++ key ++ ")"))
  | .obj fields => .ok (lookupField fields key)
  | _ => .ok JSValue.undefined

/-- Hexadecimal digit for `JSON.stringify` control-character escapes. -/
def hexDigit (n : Nat) : Char :=
  if n < 10 then Char.ofNat (48 + n) else Char.ofNat (87 + n)

/-- Escaping, per `JSON.stringify`, of one character inside a string literal. -/
def escapeJsonChar (c : Char) : String :=
  if c = '"' then "\\\""
  else if c = '\\' then "\\\\"
  else if c = '\n' then "\\n"
  else if c = '\r' then "\\r"
  else if c = '\t' then "\\t"
  else if c = Char.ofNat 8 then "\\b"
  else if c = Char.ofNat 12 then "\\f"
  else if c.toNat < 32 then
    "\\u00" ++ String.singleton (hexDigit (c.toNat / 16)) ++ String.singleton (hexDigit (c.toNat % 16))
  else String.singleton c

/-- Rendering by `JSON.stringify` of a string value: double quotes around the escaped
characters. -/
def jsonQuote (s : String) : String :=
  "\"" ++ String.join (s.toList.map escapeJsonChar) ++ "\""

mutual
/-- Rendering by `JSON.stringify` of a value.  Our callers only ever stringify objects;
a bare `undefined` (which real `JSON.stringify` maps to no output at the
top level) is rendered as the literal text `undefined` and is unreachable
from this client. -/
def jsonStringify : JSValue → String
  | .undefined => "undefined"
  | .null => "null"
  | .bool b => if b then "true" else "false"
  | .num n => toString n
  | .str s => jsonQuote s
  | .arr elems => "[" ++ stringifyElems elems ++ "]"
  | .obj fields => "\x7b" ++ stringifyFields fields ++ "\x7d"

/-- Array elements of `JSON.stringify`: `undefined` becomes `null`. -/
def stringifyElems : List JSValue → String
  | [] => ""
  | [JSValue.undefined] => "null"
  | [v] => jsonStringify v
  | JSValue.undefined :: rest => "null," ++ stringifyElems rest
  | v :: rest => jsonStringify v ++ "," ++ stringifyElems rest

/-- Object fields of `JSON.stringify`: fields holding `undefined` are
omitted. -/
def stringifyFields : List (String × JSValue) → String
  | [] => ""
  | (_, JSValue.undefined) :: rest => stringifyFields rest
  | (k, v) :: rest =>
      let here := jsonQuote k ++ ":" ++ jsonStringify v
      let there := stringifyFields rest
      if there.isEmpty then here else here ++ "," ++ there
end

/-- A WHATWG URL reduced to the parts this client observes: an origin
(scheme plus host plus port) and a pathname. -/
structure URLModel where
  origin : String
  pathname : String
deriving Repr, DecidableEq

/-- String rendering of a URL (what template-literal interpolation of a JS
`URL` object produces). -/
def URLModel.href (u : URLModel) : String := u.origin ++ u.pathname

/-- Evaluation of `new URL(input, base)` for an absolute-path `input` (starting with
`/`): the base contributes only its origin, the input becomes the
pathname.  The one call in the source passes the absolute path
`/.api/graphql`. -/
def newURL (input : String) (base : URLModel) : URLModel :=
  { origin := base.origin, pathname := input }

/-- The instance descriptor of `graphql.ts`: endpoint URL plus optional
access token. -/
structure SourcegraphInstance where
  instanceUrl : URLModel
  accessToken : Option String
deriving Repr, DecidableEq

/-- One GraphQL server-reported error of the envelope. -/
structure GraphQLErrorItem where
  message : String
  path : String
deriving Repr, DecidableEq

/-- The GraphQL envelope `\x7b data?, errors? \x7d` as decoded from the
response body.  An absent `data` field destructures to `undefined`; an
absent (or `null`) `errors` field is `none`. -/
structure GraphQLResponse where
  data : JSValue
  errors : Option (List GraphQLErrorItem)
deriving Repr

/-- The outgoing HTTP request `tracedFetch` is handed. -/
structure HttpRequest where
  url : URLModel
  method : String
  headers : List (String × String)
  body : String
deriving Repr

/-- The transport response as the executor observes it: the `ok` predicate,
status code and text, and the JSON-decoded body. -/
structure FetchResponse where
  ok : Bool
  status : Nat
  statusText : String
  jsonBody : GraphQLResponse
deriving Repr

/-- The transport (`tracedFetch` of `./tracing`): an external collaborator,
modelled as a black-box function from request to response. -/
def Transport := HttpRequest → FetchResponse

/-- The header record built by `requestGraphQL`: `Accept` and
`Content-Type` always, then `Authorization: token <accessToken>` appended
when `if (accessToken)` holds, i.e. when the token is present and
non-empty (JS string truthiness). -/
def requestHeaders (accessToken : Option String) : List (String × String) :=
  let headers := [("Accept", "application/json"), ("Content-Type", "application/json")]
  match accessToken with
  | some token => if !token.isEmpty then headers ++ [("Authorization", "token " ++ token)] else headers
  | none => headers

/-- The request `requestGraphQL` builds: POST to
`new URL(/.api/graphql, instanceUrl)` with body
`JSON.stringify(\x7b query, variables \x7d)` and the headers above. -/
def graphQLRequest (query : String) (vars : JSValue) (sgInstance : SourcegraphInstance) : HttpRequest :=
  { url := newURL "/.api/graphql" sgInstance.instanceUrl
    method := "POST"
    headers := requestHeaders sgInstance.accessToken
    body := jsonStringify (JSValue.obj [("query", JSValue.str query), ("variables", vars)]) }

/-- The executor `requestGraphQL`: sends the built request through the transport; on a
non-`ok` status throws `new Error(status + " " + statusText)` without
touching the body, otherwise resolves with the JSON-decoded envelope
verbatim. -/
def requestGraphQL (query : String) (vars : JSValue) (sgInstance : SourcegraphInstance)
    (transport : Transport) : Except JSError GraphQLResponse :=
  let response := transport (graphQLRequest query vars sgInstance)
  if !response.ok then
    .error (.error (toString response.status ++ " " ++ response.statusText))
  else
    .ok response.jsonBody

/-- The check `if (errors && errors.length > 0)` shared by all four domain
operations: `errors` must be present (truthy) and non-empty. -/
def hasGraphQLErrors : Option (List GraphQLErrorItem) → Bool
  | some errs => errs.length > 0
  | none => false

/-- The message of the `new Error` thrown on a non-empty `errors` array:
`GraphQL Error:` directly followed by the newline-joined messages. -/
def graphQLErrorMessage (errs : List GraphQLErrorItem) : String :=
  "GraphQL Error:" ++ String.intercalate "\n" (errs.map (fun e => e.message))

/-- The `Search` query template literal (the `gql` tag is a no-op). -/
def searchQuery : String :=
  String.intercalate "\n"
    [ ""
    , "                query Search($query: String!) \x7b"
    , "                    search(query: $query) \x7b"
    , "                        results \x7b"
    , "                            results \x7b"
    , "                                ... on FileMatch \x7b"
    , "                                    repository \x7b"
    , "                                        name"
    , "                                    \x7d"
    , "                                \x7d"
    , "                            \x7d"
    , "                        \x7d"
    , "                    \x7d"
    , "                \x7d"
    , "            " ]

/-- Operation `search(query, sgInstance, ctx)`: runs the search query, throws a
GraphQL Error on a non-empty `errors` array, then returns
`data.search.results.results` with no null-guarding. -/
def search (query : String) (sgInstance : SourcegraphInstance) (transport : Transport) :
    Except JSError JSValue := do
  let resp ← requestGraphQL searchQuery (JSValue.obj [("query", JSValue.str query)]) sgInstance transport
  if hasGraphQLErrors resp.errors then
    throw (.error (graphQLErrorMessage (resp.errors.getD [])))
  else
    let s ← jsGet resp.data "search"
    let r ← jsGet s "results"
    jsGet r "results"

/-- The `ResolveRev` query template literal. -/
def resolveRevQuery : String :=
  String.intercalate "\n"
    [ ""
    , "                query ResolveRev($repoName: String!, $rev: String!) \x7b"
    , "                    repository(name: $repoName) \x7b"
    , "                        commit(rev: $rev) \x7b"
    , "                            oid"
    , "                        \x7d"
    , "                    \x7d"
    , "                \x7d"
    , "            " ]

/-- Operation `resolveRev(repoName, rev, sgInstance, ctx)`: throws a GraphQL Error on
a non-empty `errors` array, then returns `data.repository.commit.oid` with
no null-guarding. -/
def resolveRev (repoName : String) (rev : String) (sgInstance : SourcegraphInstance)
    (transport : Transport) : Except JSError JSValue := do
  let resp ← requestGraphQL resolveRevQuery
    (JSValue.obj [("repoName", JSValue.str repoName), ("rev", JSValue.str rev)]) sgInstance transport
  if hasGraphQLErrors resp.errors then
    throw (.error (graphQLErrorMessage (resp.errors.getD [])))
  else
    let repo ← jsGet resp.data "repository"
    let commit ← jsGet repo "commit"
    jsGet commit "oid"

/-- The clone-URL resolution query template literal. -/
def resolveRepositoryQuery : String :=
  String.intercalate "\n"
    [ ""
    , "                query($cloneUrl: String!) \x7b"
    , "                    repository(cloneURL: $cloneUrl) \x7b"
    , "                        name"
    , "                    \x7d"
    , "                \x7d"
    , "            " ]

/-- The Not Found message of `resolveRepository`; interpolating the
`instanceUrl` URL object renders its href. -/
def notFoundMessage (cloneUrl : String) (sgInstance : SourcegraphInstance) : String :=
  "No repository found for clone URL " ++ cloneUrl ++ " on instance " ++ sgInstance.instanceUrl.href

/-- Operation `resolveRepository(cloneUrl, sgInstance, ctx)`: throws a GraphQL Error
on a non-empty `errors` array, throws the Not Found `new Error` when
`!data.repository` (JS falsiness), else returns `data.repository.name`. -/
def resolveRepository (cloneUrl : String) (sgInstance : SourcegraphInstance)
    (transport : Transport) : Except JSError JSValue := do
  let resp ← requestGraphQL resolveRepositoryQuery
    (JSValue.obj [("cloneUrl", JSValue.str cloneUrl)]) sgInstance transport
  if hasGraphQLErrors resp.errors then
    throw (.error (graphQLErrorMessage (resp.errors.getD [])))
  else
    let repo ← jsGet resp.data "repository"
    if !jsTruthy repo then
      throw (.error (notFoundMessage cloneUrl sgInstance))
    else
      jsGet repo "name"

/-- The `ExtensionManifests` query template literal. -/
def queryExtensionsQuery : String :=
  String.intercalate "\n"
    [ ""
    , "                query ExtensionManifests \x7b"
    , "                    extensionRegistry \x7b"
    , "                        extensions \x7b"
    , "                            nodes \x7b"
    , "                                extensionID"
    , "                                manifest \x7b"
    , "                                    raw"
    , "                                \x7d"
    , "                            \x7d"
    , "                        \x7d"
    , "                    \x7d"
    , "                \x7d"
    , "            " ]

/-- Operation `queryExtensions(sgInstance, ctx)`: throws a GraphQL Error on a
non-empty `errors` array, then returns
`data.extensionRegistry.extensions.nodes` with no null-guarding. -/
def queryExtensions (sgInstance : SourcegraphInstance) (transport : Transport) :
    Except JSError JSValue := do
  let resp ← requestGraphQL queryExtensionsQuery (JSValue.obj []) sgInstance transport
  if hasGraphQLErrors resp.errors then
    throw (.error (graphQLErrorMessage (resp.errors.getD [])))
  else
    let registry ← jsGet resp.data "extensionRegistry"
    let extensions ← jsGet registry "extensions"
    jsGet extensions "nodes"

/-- A transport that returns the same response for every request (used to
model a mock server in the theorems). -/
def constTransport (response : FetchResponse) : Transport := fun _ => response

/-- An HTTP 200 OK response carrying the given envelope. -/
def okResponse (body : GraphQLResponse) : FetchResponse :=
  { ok := true, status := 200, statusText := "OK", jsonBody := body }

/-- A concrete instance descriptor without a token, used as a concrete
input by the witnesses. -/
def testInstance : SourcegraphInstance :=
  { instanceUrl := { origin := "https://sourcegraph.test", pathname := "/" }, accessToken := none }

/-- A concrete instance descriptor with a non-empty token. -/
def testInstanceToken : SourcegraphInstance :=
  { instanceUrl := { origin := "https://sourcegraph.test", pathname := "/" }, accessToken := some "abc" }

/-- A concrete instance descriptor whose token is present but empty. -/
def testInstanceEmptyToken : SourcegraphInstance :=
  { instanceUrl := { origin := "https://sourcegraph.test", pathname := "/" }, accessToken := some "" }

/-- Property reads never throw a plain `new Error`: every failure of
`jsGet` is a runtime `TypeError`. -/
theorem jsGet_not_plain_error (v : JSValue) (key m : String) :
    jsGet v key ≠ Except.error (JSError.error m) := by
  cases v <;> simp [jsGet]

/-- Evaluation helper: binding a resolved `Except` applies the
continuation. -/
theorem okBind {α β : Type} (a : α) (f : α → Except JSError β) :
    (Except.ok a : Except JSError α) >>= f = f a := rfl

/-- Evaluation helper: binding a rejected `Except` propagates the error. -/
theorem errorBind {α β : Type} (e : JSError) (f : α → Except JSError β) :
    (Except.error e : Except JSError α) >>= f = Except.error e := rfl

/-- Evaluation helper: `throw` builds the error case. -/
theorem throwEq {α : Type} (e : JSError) :
    (throw e : Except JSError α) = Except.error e := rfl

/-- The shared error check accepts every non-empty list. -/
theorem hasGraphQLErrors_cons (e : GraphQLErrorItem) (es : List GraphQLErrorItem) :
    hasGraphQLErrors (some (e :: es)) = true := by
  simp [hasGraphQLErrors]

/-- C1: for every envelope whose `errors` field is a non-empty sequence,
each of the four domain operations rejects with an error whose message is
the literal `GraphQL Error:` followed by the errors' `message` fields
newline-joined in server order — for every `data` value, so the check
precedes any field extraction. -/
theorem graphQLErrors_reject_all_operations
    (sgInstance : SourcegraphInstance) (errs : List GraphQLErrorItem)
    (hne : errs ≠ []) (d : JSValue) (q repoName rev cloneUrl : String) :
    search q sgInstance (constTransport (okResponse { data := d, errors := some errs }))
      = Except.error (JSError.error (graphQLErrorMessage errs)) ∧
    resolveRev repoName rev sgInstance (constTransport (okResponse { data := d, errors := some errs }))
      = Except.error (JSError.error (graphQLErrorMessage errs)) ∧
    resolveRepository cloneUrl sgInstance (constTransport (okResponse { data := d, errors := some errs }))
      = Except.error (JSError.error (graphQLErrorMessage errs)) ∧
    queryExtensions sgInstance (constTransport (okResponse { data := d, errors := some errs }))
      = Except.error (JSError.error (graphQLErrorMessage errs)) ∧
    graphQLErrorMessage errs
      = "GraphQL Error:" ++ String.intercalate "\n" (errs.map (fun e => e.message)) := by
  cases errs with
  | nil => exact absurd rfl hne
  | cons e es =>
    refine ⟨?_, ?_, ?_, ?_, rfl⟩ <;>
      simp [search, resolveRev, resolveRepository, queryExtensions, requestGraphQL,
            constTransport, okResponse, okBind, throwEq, hasGraphQLErrors_cons,
            graphQLErrorMessage]

/-- C1 witness: a concrete non-empty error list makes `search` reject with
the joined GraphQL error message. -/
theorem graphQLErrors_reject_all_operations_witness :
    search "q" testInstance (constTransport (okResponse
        { data := JSValue.null, errors := some [{ message := "boom", path := "p" }] }))
      = Except.error (JSError.error (graphQLErrorMessage [{ message := "boom", path := "p" }])) :=
  (graphQLErrors_reject_all_operations testInstance [{ message := "boom", path := "p" }]
    (List.cons_ne_nil _ _) JSValue.null "q" "repo" "HEAD" "url").1

/-- C2: whenever the transport's `ok` predicate is false, `requestGraphQL`
and every domain operation reject with an error whose message is the status
code, a space, and the status text; the response body is neither decoded
nor returned (the outcome is the same for every body). -/
theorem transport_failure_rejects_with_status
    (response : FetchResponse) (hok : response.ok = false)
    (sgInstance : SourcegraphInstance) (q repoName rev cloneUrl : String) (vars' : JSValue) :
    requestGraphQL q vars' sgInstance (constTransport response)
      = Except.error (JSError.error (toString response.status ++ " " ++ response.statusText)) ∧
    search q sgInstance (constTransport response)
      = Except.error (JSError.error (toString response.status ++ " " ++ response.statusText)) ∧
    resolveRev repoName rev sgInstance (constTransport response)
      = Except.error (JSError.error (toString response.status ++ " " ++ response.statusText)) ∧
    resolveRepository cloneUrl sgInstance (constTransport response)
      = Except.error (JSError.error (toString response.status ++ " " ++ response.statusText)) ∧
    queryExtensions sgInstance (constTransport response)
      = Except.error (JSError.error (toString response.status ++ " " ++ response.statusText)) ∧
    (∀ body1 body2 : GraphQLResponse,
      requestGraphQL q vars' sgInstance (constTransport { response with jsonBody := body1 })
        = requestGraphQL q vars' sgInstance (constTransport { response with jsonBody := body2 })) := by
  obtain ⟨ok, status, statusText, body⟩ := response
  subst hok
  exact ⟨rfl, rfl, rfl, rfl, rfl, fun body1 body2 => rfl⟩

/-- C2 witness: a concrete 401 response makes `requestGraphQL` reject with
the message `401 Unauthorized`. -/
theorem transport_failure_rejects_with_status_witness :
    requestGraphQL "q" (JSValue.obj []) testInstance
      (constTransport { ok := false, status := 401, statusText := "Unauthorized",
                        jsonBody := { data := JSValue.null, errors := none } })
      = Except.error (JSError.error "401 Unauthorized") :=
  (transport_failure_rejects_with_status
    { ok := false, status := 401, statusText := "Unauthorized",
      jsonBody := { data := JSValue.null, errors := none } }
    rfl testInstance "q" "repo" "HEAD" "url" (JSValue.obj [])).1

/-- C7: on a successful HTTP status, `requestGraphQL` resolves with the
decoded envelope verbatim, inspecting neither `data` nor `errors`; in
particular it resolves even when the envelope carries a non-empty `errors`
array. -/
theorem requestGraphQL_returns_envelope_verbatim
    (q : String) (vars' : JSValue) (sgInstance : SourcegraphInstance)
    (response : FetchResponse) (hok : response.ok = true) :
    requestGraphQL q vars' sgInstance (constTransport response) = Except.ok response.jsonBody ∧
    (∀ (d : JSValue) (errs : List GraphQLErrorItem),
      requestGraphQL q vars' sgInstance (constTransport (okResponse { data := d, errors := some errs }))
        = Except.ok { data := d, errors := some errs }) := by
  obtain ⟨ok, status, statusText, body⟩ := response
  subst hok
  exact ⟨rfl, fun d errs => rfl⟩

/-- C7 witness: a 200 response whose envelope carries one error still
resolves, returning the envelope unchanged. -/
theorem requestGraphQL_returns_envelope_verbatim_witness :
    requestGraphQL "q" (JSValue.obj []) testInstance
      (constTransport (okResponse { data := JSValue.null, errors := some [{ message := "e", path := "p" }] }))
      = Except.ok { data := JSValue.null, errors := some [{ message := "e", path := "p" }] } :=
  (requestGraphQL_returns_envelope_verbatim "q" (JSValue.obj []) testInstance
    (okResponse { data := JSValue.null, errors := some [{ message := "e", path := "p" }] }) rfl).1

/-- C3: with empty `errors` and a 200 status, a `null` `data.repository`
makes `resolveRepository` — and only `resolveRepository` — reject with the
Not Found error, whose message contains both the clone URL argument and
the instance URL; the three other operations reject with runtime
`TypeError`s on the same envelope, never with a Not Found error. -/
theorem resolveRepository_null_repository_not_found
    (sgInstance : SourcegraphInstance) (q repoName rev cloneUrl : String) :
    resolveRepository cloneUrl sgInstance (constTransport (okResponse
        { data := JSValue.obj [("repository", JSValue.null)], errors := some [] }))
      = Except.error (JSError.error (notFoundMessage cloneUrl sgInstance)) ∧
    (∃ pre post, notFoundMessage cloneUrl sgInstance = pre ++ cloneUrl ++ post) ∧
    (∃ pre, notFoundMessage cloneUrl sgInstance = pre ++ sgInstance.instanceUrl.href) ∧
    (∃ m, search q sgInstance (constTransport (okResponse
        { data := JSValue.obj [("repository", JSValue.null)], errors := some [] }))
      = Except.error (JSError.typeError m)) ∧
    (∃ m, resolveRev repoName rev sgInstance (constTransport (okResponse
        { data := JSValue.obj [("repository", JSValue.null)], errors := some [] }))
      = Except.error (JSError.typeError m)) ∧
    (∃ m, queryExtensions sgInstance (constTransport (okResponse
        { data := JSValue.obj [("repository", JSValue.null)], errors := some [] }))
      = Except.error (JSError.typeError m)) := by
  refine ⟨rfl,
    ⟨"No repository found for clone URL ", " on instance " ++ sgInstance.instanceUrl.href, ?_⟩,
    ⟨"No repository found for clone URL " ++ cloneUrl ++ " on instance ", rfl⟩,
    ⟨_, rfl⟩, ⟨_, rfl⟩, ⟨_, rfl⟩⟩
  show ("No repository found for clone URL " ++ cloneUrl ++ " on instance ")
        ++ sgInstance.instanceUrl.href
      = ("No repository found for clone URL " ++ cloneUrl)
        ++ (" on instance " ++ sgInstance.instanceUrl.href)
  rw [String.append_assoc]

/-- C4: with a successful status and empty (or absent) `errors`, each
operation resolves with exactly the field it extracts from `data`,
unmodified: `data.search.results.results`, `data.repository.commit.oid`,
`data.repository.name`, `data.extensionRegistry.extensions.nodes`. -/
theorem operations_extract_exact_field
    (v : JSValue) (errsOpt : Option (List GraphQLErrorItem))
    (hE : errsOpt = none ∨ errsOpt = some [])
    (sgInstance : SourcegraphInstance) (q repoName rev cloneUrl : String) :
    search q sgInstance (constTransport (okResponse
        { data := JSValue.obj [("search", JSValue.obj [("results", JSValue.obj [("results", v)])])],
          errors := errsOpt }))
      = Except.ok v ∧
    resolveRev repoName rev sgInstance (constTransport (okResponse
        { data := JSValue.obj [("repository", JSValue.obj [("commit", JSValue.obj [("oid", v)])])],
          errors := errsOpt }))
      = Except.ok v ∧
    resolveRepository cloneUrl sgInstance (constTransport (okResponse
        { data := JSValue.obj [("repository", JSValue.obj [("name", v)])], errors := errsOpt }))
      = Except.ok v ∧
    queryExtensions sgInstance (constTransport (okResponse
        { data := JSValue.obj [("extensionRegistry",
            JSValue.obj [("extensions", JSValue.obj [("nodes", v)])])], errors := errsOpt }))
      = Except.ok v := by
  rcases hE with rfl | rfl
  · exact ⟨rfl, rfl, rfl, rfl⟩
  · exact ⟨rfl, rfl, rfl, rfl⟩

/-- C4 witness: against a mock returning the spec's example envelope,
`search "foo"` yields the file-match list unchanged. -/
theorem operations_extract_exact_field_witness :
    search "foo" testInstance (constTransport (okResponse
        { data := JSValue.obj [("search", JSValue.obj [("results", JSValue.obj [("results",
            JSValue.arr [JSValue.obj [("repository", JSValue.obj [("name", JSValue.str "github.com/a/b")])]])])])],
          errors := some [] }))
      = Except.ok (JSValue.arr [JSValue.obj [("repository", JSValue.obj [("name", JSValue.str "github.com/a/b")])]]) :=
  (operations_extract_exact_field
    (JSValue.arr [JSValue.obj [("repository", JSValue.obj [("name", JSValue.str "github.com/a/b")])]])
    (some []) (Or.inr rfl) testInstance "foo" "repo" "HEAD" "url").1

/-- C5: the outgoing request is a POST to the URL built from the instance
URL and the absolute path `/.api/graphql`, with JSON body
`JSON.stringify` of the object holding the query string and the variables
mapping, and with `Accept` and `Content-Type` set to `application/json`;
`requestGraphQL` consults the transport exactly at this request. -/
theorem requestGraphQL_wire_format
    (q : String) (vars' : JSValue) (sgInstance : SourcegraphInstance) :
    (graphQLRequest q vars' sgInstance).url
        = { origin := sgInstance.instanceUrl.origin, pathname := "/.api/graphql" } ∧
    (graphQLRequest q vars' sgInstance).url.href
        = sgInstance.instanceUrl.origin ++ "/.api/graphql" ∧
    (graphQLRequest q vars' sgInstance).method = "POST" ∧
    (graphQLRequest q vars' sgInstance).body
        = jsonStringify (JSValue.obj [("query", JSValue.str q), ("variables", vars')]) ∧
    ("Accept", "application/json") ∈ (graphQLRequest q vars' sgInstance).headers ∧
    ("Content-Type", "application/json") ∈ (graphQLRequest q vars' sgInstance).headers ∧
    (∀ t1 t2 : Transport,
      t1 (graphQLRequest q vars' sgInstance) = t2 (graphQLRequest q vars' sgInstance) →
      requestGraphQL q vars' sgInstance t1 = requestGraphQL q vars' sgInstance t2) := by
  refine ⟨rfl, rfl, rfl, rfl, ?_, ?_, ?_⟩
  · show ("Accept", "application/json") ∈ requestHeaders sgInstance.accessToken
    cases sgInstance.accessToken with
    | none => simp [requestHeaders]
    | some token =>
      cases hemp : token.isEmpty <;> simp [requestHeaders, hemp]
  · show ("Content-Type", "application/json") ∈ requestHeaders sgInstance.accessToken
    cases sgInstance.accessToken with
    | none => simp [requestHeaders]
    | some token =>
      cases hemp : token.isEmpty <;> simp [requestHeaders, hemp]
  · intro t1 t2 h12
    simp only [requestGraphQL, h12]

/-- C5 witness: the concrete request of a plain instance is a POST whose
target URL renders as the origin followed by `/.api/graphql`. -/
theorem requestGraphQL_wire_format_witness :
    (graphQLRequest "q" (JSValue.obj []) testInstance).method = "POST" ∧
    (graphQLRequest "q" (JSValue.obj []) testInstance).url.href
        = "https://sourcegraph.test" ++ "/.api/graphql" ∧
    ("Accept", "application/json") ∈ (graphQLRequest "q" (JSValue.obj []) testInstance).headers :=
  ⟨(requestGraphQL_wire_format "q" (JSValue.obj []) testInstance).2.2.1,
   (requestGraphQL_wire_format "q" (JSValue.obj []) testInstance).2.1,
   (requestGraphQL_wire_format "q" (JSValue.obj []) testInstance).2.2.2.2.1⟩

/-- C6 counterexample: a credential that is supplied but empty produces no
`Authorization: token <credential>` header, refuting the claim for that
input. -/
theorem authorization_empty_credential_counterexample :
    testInstanceEmptyToken.accessToken = some "" ∧
    ("Authorization", "token ")
      ∉ (graphQLRequest "q" (JSValue.obj []) testInstanceEmptyToken).headers :=
  ⟨rfl, by decide⟩

/-- C6 corrected: the outgoing headers include `Authorization: token
<credential>` when the supplied credential is non-empty; when the
credential is absent — and likewise when it is present but empty — no
Authorization header is sent. -/
theorem authorization_header_policy
    (sgInstance : SourcegraphInstance) (q : String) (vars' : JSValue) :
    (∀ token, sgInstance.accessToken = some token → token ≠ "" →
      (graphQLRequest q vars' sgInstance).headers
        = [("Accept", "application/json"), ("Content-Type", "application/json"),
           ("Authorization", "token " ++ token)]) ∧
    (sgInstance.accessToken = none ∨ sgInstance.accessToken = some "" →
      (graphQLRequest q vars' sgInstance).headers
        = [("Accept", "application/json"), ("Content-Type", "application/json")]) := by
  constructor
  · intro token htok hne
    show requestHeaders sgInstance.accessToken = _
    rw [htok]
    have hemp : token.isEmpty = false := by
      rw [Bool.eq_false_iff]
      intro hc
      exact hne ((String.isEmpty_iff token).mp hc)
    simp [requestHeaders, hemp]
  · rintro (hnone | hempty)
    · show requestHeaders sgInstance.accessToken = _
      rw [hnone]
      rfl
    · show requestHeaders sgInstance.accessToken = _
      rw [hempty]
      rfl

/-- C6 witness: a non-empty token appends exactly the Authorization header;
an absent token sends only the two JSON headers. -/
theorem authorization_header_policy_witness :
    (graphQLRequest "q" (JSValue.obj []) testInstanceToken).headers
      = [("Accept", "application/json"), ("Content-Type", "application/json"),
         ("Authorization", "token " ++ "abc")] ∧
    (graphQLRequest "q" (JSValue.obj []) testInstance).headers
      = [("Accept", "application/json"), ("Content-Type", "application/json")] :=
  ⟨(authorization_header_policy testInstanceToken "q" (JSValue.obj [])).1 "abc" rfl (by decide),
   (authorization_header_policy testInstance "q" (JSValue.obj [])).2 (Or.inl rfl)⟩

/-- C8: in `search`, `resolveRev` and `queryExtensions` the extraction does
no null-guarding: with empty (or absent) `errors`, an expected
intermediate field that is `null` or absent makes the operation reject
with a runtime null/undefined access error, not a typed one. -/
theorem extraction_has_no_null_guarding
    (sgInstance : SourcegraphInstance) (q repoName rev : String) :
    (∃ m, search q sgInstance (constTransport (okResponse
        { data := JSValue.obj [("search", JSValue.null)], errors := some [] }))
      = Except.error (JSError.typeError m)) ∧
    (∃ m, resolveRev repoName rev sgInstance (constTransport (okResponse
        { data := JSValue.obj [("repository", JSValue.null)], errors := some [] }))
      = Except.error (JSError.typeError m)) ∧
    (∃ m, resolveRev repoName rev sgInstance (constTransport (okResponse
        { data := JSValue.obj [("repository", JSValue.obj [("commit", JSValue.null)])],
          errors := some [] }))
      = Except.error (JSError.typeError m)) ∧
    (∃ m, queryExtensions sgInstance (constTransport (okResponse
        { data := JSValue.obj [("extensionRegistry", JSValue.null)], errors := some [] }))
      = Except.error (JSError.typeError m)) ∧
    (∃ m, search q sgInstance (constTransport (okResponse
        { data := JSValue.obj [], errors := none }))
      = Except.error (JSError.typeError m)) ∧
    (∃ m, resolveRev repoName rev sgInstance (constTransport (okResponse
        { data := JSValue.obj [], errors := none }))
      = Except.error (JSError.typeError m)) ∧
    (∃ m, queryExtensions sgInstance (constTransport (okResponse
        { data := JSValue.obj [], errors := none }))
      = Except.error (JSError.typeError m)) :=
  ⟨⟨_, rfl⟩, ⟨_, rfl⟩, ⟨_, rfl⟩, ⟨_, rfl⟩, ⟨_, rfl⟩, ⟨_, rfl⟩, ⟨_, rfl⟩⟩

/-- C9: a present-but-empty credential fails the truthiness test
`if (accessToken)`, so no Authorization header is sent at all. -/
theorem empty_token_sends_no_authorization
    (sgInstance : SourcegraphInstance) (q : String) (vars' : JSValue)
    (h : sgInstance.accessToken = some "") :
    (graphQLRequest q vars' sgInstance).headers
      = [("Accept", "application/json"), ("Content-Type", "application/json")] ∧
    ∀ value, ("Authorization", value) ∉ (graphQLRequest q vars' sgInstance).headers := by
  have hh : (graphQLRequest q vars' sgInstance).headers
      = [("Accept", "application/json"), ("Content-Type", "application/json")] := by
    show requestHeaders sgInstance.accessToken = _
    rw [h]
    rfl
  refine ⟨hh, fun value => ?_⟩
  rw [hh]
  simp

/-- C9 witness: the concrete empty-token instance sends exactly the two
JSON headers. -/
theorem empty_token_sends_no_authorization_witness :
    (graphQLRequest "q" (JSValue.obj []) testInstanceEmptyToken).headers
      = [("Accept", "application/json"), ("Content-Type", "application/json")] :=
  (empty_token_sends_no_authorization testInstanceEmptyToken "q" (JSValue.obj []) rfl).1

/-- C10 counterexample: with empty `errors` and `data` a non-null object
whose `repository` field is the present, non-null empty string, the Not
Found rejection still fires — so it is not produced only when
`data.repository` is null or absent. -/
theorem notFound_on_falsy_counterexample :
    resolveRepository "https://x/y.git" testInstance (constTransport (okResponse
        { data := JSValue.obj [("repository", JSValue.str "")], errors := some [] }))
      = Except.error (JSError.error (notFoundMessage "https://x/y.git" testInstance)) := rfl

/-- C10 corrected: the Not Found rejection is produced only when `data`
itself supports property access (is not null or undefined) and its
`repository` field is falsy — null, absent, or another falsy value such as
the empty string; for an envelope with empty `errors` whose `data` is null
or absent entirely, `resolveRepository` rejects with a generic
null/undefined access error before the Not Found check is reached. -/
theorem notFound_exactly_on_falsy_repository
    (sgInstance : SourcegraphInstance) (cloneUrl : String) (d : JSValue)
    (errsOpt : Option (List GraphQLErrorItem)) (hE : errsOpt = none ∨ errsOpt = some []) :
    ((d = JSValue.null ∨ d = JSValue.undefined) →
      ∃ m, resolveRepository cloneUrl sgInstance
          (constTransport (okResponse { data := d, errors := errsOpt }))
        = Except.error (JSError.typeError m)) ∧
    (∀ m, resolveRepository cloneUrl sgInstance
          (constTransport (okResponse { data := d, errors := errsOpt }))
        = Except.error (JSError.error m) →
      m = notFoundMessage cloneUrl sgInstance ∧
      ∃ repo, jsGet d "repository" = Except.ok repo ∧ jsTruthy repo = false) := by
  have hred : ∀ eo : Option (List GraphQLErrorItem), eo = none ∨ eo = some [] →
      resolveRepository cloneUrl sgInstance
          (constTransport (okResponse { data := d, errors := eo }))
        = (jsGet d "repository") >>= (fun repo =>
            if !jsTruthy repo then
              Except.error (JSError.error (notFoundMessage cloneUrl sgInstance))
            else jsGet repo "name") := by
    rintro eo (rfl | rfl) <;> rfl
  constructor
  · rintro (rfl | rfl)
    · exact ⟨_, (hred errsOpt hE).trans rfl⟩
    · exact ⟨_, (hred errsOpt hE).trans rfl⟩
  · intro m hm
    rw [hred errsOpt hE] at hm
    cases hjs : jsGet d "repository" with
    | error e =>
      rw [hjs, errorBind] at hm
      injection hm with he
      subst he
      exact absurd hjs (jsGet_not_plain_error d "repository" m)
    | ok repo =>
      rw [hjs, okBind] at hm
      cases htr : jsTruthy repo with
      | false =>
        rw [htr] at hm
        simp only [Bool.not_false, if_true] at hm
        injection hm with h1
        injection h1 with h2
        exact ⟨h2.symm, repo, rfl, htr⟩
      | true =>
        rw [htr] at hm
        simp only [Bool.not_true, if_false] at hm
        exact absurd hm (jsGet_not_plain_error repo "name" m)

/-- C10 witness: with `data` null and `errors` absent, `resolveRepository`
rejects with a runtime TypeError, not with the Not Found error. -/
theorem notFound_exactly_on_falsy_repository_witness :
    ∃ m, resolveRepository "url" testInstance (constTransport (okResponse
        { data := JSValue.null, errors := none }))
      = Except.error (JSError.typeError m) :=
  (notFound_exactly_on_falsy_repository testInstance "url" JSValue.null none (Or.inl rfl)).1
    (Or.inl rfl)
